import Mathlib

set_option maxRecDepth 8000
set_option maxHeartbeats 2000000

/-!
Shallow embedding of the two scripts of this repository:

  * `scripts/generate_excel.py` — builds the ten-sheet workbook
    `GPBullhound_LiveData.xlsx` out of hardcoded tables and formula strings;
  * `scripts/recalc.py` — re-opens the workbook and runs the structural
    checks (`check_sheet_names`, `check_portfolio_headers`,
    `check_formula_presence`) and the error-literal scan (`verify_workbook`).

A workbook is modelled as a list of sheets; a sheet is its name, the ordered
list of value writes the generator performs (a write assigns an optional
`Value` to a `(row, column)` coordinate, both 1-based), and its data
validation rules.  Cell styling (fills, fonts, widths, freeze panes, tab
colours, conditional formatting) assigns no cell value and is not observed by
any check in `recalc.py`, so it is not modelled; openpyxl cells touched only
by styling, and cells inside the scanned rectangle that were never touched,
carry value `None`, which every check skips, so omitting them does not change
any count computed below.
-/

namespace GPB

/-- A Python value stored in a workbook cell: a string, an `int`, or a
`float`.  The floats written by the generator are all decimal literals, so a
float is represented exactly as `mantissa / 10 ^ shift`. -/
inductive Value where
  | s (str : String)
  | i (n : Int)
  | f (mantissa : Int) (shift : Nat)
deriving DecidableEq, Repr

/-- Pads a digit string with leading zeros up to width `k`. -/
def padZeros (s : String) (k : Nat) : String :=
  if s.length < k then String.mk (List.replicate (k - s.length) '0') ++ s else s

/-- Decimal rendering of `m / 10 ^ k` (`k ≥ 1` for every float in the
source), e.g. `decimalString 23 1 = "2.3"`, matching Python `str(2.3)`.
The checks in `recalc.py` only compare a cell's string against the seven
error literals and look at its first character, and no numeric rendering can
equal an error literal or start with `=`. -/
def decimalString (m : Int) (k : Nat) : String :=
  let sign := if m < 0 then "-" else ""
  let a := m.natAbs
  sign ++ toString (a / 10 ^ k) ++ "." ++ padZeros (toString (a % 10 ^ k)) k

/-- Python `str(val)` for the values that occur in workbook cells. -/
def pyStr : Value → String
  | .s str => str
  | .i n => toString n
  | .f m k => decimalString m k

/-- Model of Python `str.strip()`: drop whitespace at both ends. -/
def stripChars (l : List Char) : List Char :=
  ((l.dropWhile Char.isWhitespace).reverse.dropWhile Char.isWhitespace).reverse

/-- Model of Python `str.strip()` on strings. -/
def pyStrip (s : String) : String := String.mk (stripChars s.data)

/-- Model of Python `str.upper()` (ASCII; every character this must act on in
the workbook, and every character of the error literals, is ASCII). -/
def pyUpper (s : String) : String := String.mk (s.data.map Char.toUpper)

/-- Model of Python `s.startswith(pre)`. -/
def startswith (s pre : String) : Bool := pre.data.isPrefixOf s.data

/-- A cell coordinate `(row, column)`, both 1-based. -/
abbrev Coord := Nat × Nat

/-- One value write performed by the generator: `cell.value = v`. -/
abbrev CellWrite := Coord × Option Value

/-- An openpyxl `DataValidation` rule as configured by the generator. -/
structure DataVal where
  dvType : String
  operator : Option String := none
  formula1 : Option String := none
  formula2 : Option String := none
  allowBlank : Bool := false
  showErrorMessage : Bool := false
  errorTitle : Option String := none
  errorMsg : Option String := none
  sqref : String := ""
deriving DecidableEq, Repr

/-- A worksheet: its name, the value writes made to it in program order, and
its data validation rules. -/
structure Sheet where
  name : String
  cells : List CellWrite
  dvs : List DataVal := []
deriving DecidableEq, Repr

/-- A workbook is its ordered list of sheets (`wb.sheetnames` order). -/
abbrev Workbook := List Sheet

/-- Applies one write to the cell store: a later write to the same
coordinate overwrites the earlier value, otherwise the cell is appended
(openpyxl creates the cell on first touch). -/
def upsert (acc : List CellWrite) (w : CellWrite) : List CellWrite :=
  if acc.any (fun x => x.1 == w.1) then
    acc.map (fun x => if x.1 == w.1 then (x.1, w.2) else x)
  else acc ++ [w]

/-- The sheet's cell store after all writes: one entry per touched
coordinate holding the last value written there. -/
def sheetCells (writes : List CellWrite) : List CellWrite :=
  writes.foldl upsert []

/-- Reads a cell: the last value written at the coordinate, else `None`
(an untouched cell reads as `None` in openpyxl). -/
def Sheet.get (ws : Sheet) (rc : Coord) : Option Value :=
  match ws.cells.reverse.find? (fun w => w.1 == rc) with
  | some w => w.2
  | none => none

/-- Shorthand for a string cell value. -/
def S (x : String) : Option Value := some (Value.s x)

/-- Shorthand for an `int` cell value. -/
def I (n : Int) : Option Value := some (Value.i n)

/-- Shorthand for a `float` cell value `m / 10 ^ k`. -/
def F (m : Int) (k : Nat) : Option Value := some (Value.f m k)

/-- The apostrophe character, used inside quarter labels such as Q2-22. -/
def apos : String := String.singleton (Char.ofNat 39)

/-- A quarter label: `quar "Q2" "22"` is Q2-apostrophe-22 as in the source. -/
def quar (a b : String) : String := a ++ apos ++ b

/-- Model of `write_headers`: writes `headers` into row `row` starting at
column 1 (`enumerate(headers, 1)`). -/
def write_headers (row : Nat) (headers : List String) : List CellWrite :=
  headers.enum.map (fun p => ((row, p.1 + 1), S p.2))

/-- Model of openpyxl `get_column_letter` for the single-letter columns
(1–26) which are the only ones the generator uses (max column index 21). -/
def get_column_letter (n : Nat) : String :=
  String.singleton (Char.ofNat (64 + n))

/-- Model of `add_dropdown`: a list-type data validation over the cell range
`colLetter ++ startRow : colLetter ++ endRow`. -/
def add_dropdown (colLetter : String) (startRow endRow : Nat) (f1 : String) : DataVal :=
  { dvType := "list", formula1 := some f1, allowBlank := true,
    showErrorMessage := true,
    sqref := colLetter ++ toString startRow ++ ":" ++ colLetter ++ toString endRow }

/-- Writes `vals` into row `r` starting at column 1 (`enumerate(vals, 1)`). -/
def row_writes (r : Nat) (vals : List (Option Value)) : List CellWrite :=
  vals.enum.map (fun p => ((r, p.1 + 1), p.2))

/-! ## Sheet 1: Portfolio (`build_portfolio`) -/

/-- The Portfolio header row written by the generator (`headers` in
`build_portfolio`). -/
def portfolio_headers : List String :=
  ["name", "arr", "arr_gr", "nav", "nav_pct", "moic", "burn",
   "gm", "nrr", "ev_arr", "ev_arr_entry", "valuation",
   "sector", "stage", "geo", "status", "funds",
   "esg_e", "esg_s", "esg_g", "lever"]

/-- The `companies` table: each row lists the 19 tuple entries
(name, arr, arr_gr, nav, moic, burn, gm, nrr, ev_arr_entry, valuation,
sector, stage, geo, status, funds, esg_e, esg_s, esg_g, lever); the
d-Matrix `nrr` entry is Python `None`. -/
def companies : List (List (Option Value)) :=
  [ [S "Q-CTRL", I 18, I 120, I 82, F 23 1, F 12 1, I 75, I 145, F 120 1, I 396,
     S "DeepTech/Quantum", S "Series D", S "AU/US", S "Star", S "Fund V",
     I 72, I 80, I 68, F 32 1],
    [S "Multiverse", I 48, I 65, I 55, F 20 1, F 14 1, I 66, I 122, F 62 1, I 408,
     S "EdTech", S "Series D", S "UK", S "Core", S "Fund IV",
     I 68, I 71, I 66, F 28 1],
    [S "d-Matrix", I 5, I 200, I 38, F 17 1, F 42 1, I 45, none, F 220 1, I 220,
     S "AI Hardware", S "Series B", S "US", S "High Growth", S "Fund V",
     I 58, I 62, I 55, F 41 1],
    [S "Ledger", I 85, I 35, I 32, F 16 1, F 6 1, I 72, I 118, F 95 1, I 1530,
     S "FinTech/Crypto", S "Series D", S "FR", S "Core", S "Fund III",
     I 70, I 74, I 69, F 21 1],
    [S "Wayflyer", I 42, I 55, I 40, F 14 1, F 11 1, I 68, I 115, F 58 1, I 298,
     S "FinTech", S "Series C", S "IE/US", S "Core", S "Fund V",
     I 64, I 68, I 62, F 29 1],
    [S "Matillion", I 62, I 40, I 32, F 15 1, F 13 1, I 70, I 130, F 72 1, I 583,
     S "Software", S "Series E", S "UK/US", S "Core", S "Fund IV",
     I 66, I 70, I 65, F 25 1],
    [S "Sanity", I 24, I 38, I 18, F 15 1, F 18 1, I 71, I 108, F 75 1, I 228,
     S "Software", S "Series C", S "NO", S "Watch", S "Fund V",
     I 60, I 64, I 58, F 30 1],
    [S "Headway", I 15, I 80, I 14, F 11 1, F 21 1, I 62, I 95, F 55 1, I 108,
     S "EdTech", S "Series B", S "UA/US", S "Watch", S "Fund VI",
     I 55, I 60, I 52, F 35 1],
    [S "Booksy", I 38, I 42, I 32, F 13 1, F 7 1, I 71, I 115, F 68 1, I 334,
     S "Software", S "Series D", S "PL/US", S "Core", S "Fund V",
     I 62, I 66, I 61, F 27 1],
    [S "Quantexa", I 55, I 68, I 58, F 21 1, F 15 1, I 68, I 125, F 98 1, I 781,
     S "AI/Data", S "Series E", S "UK", S "Star", S "Fund IV",
     I 71, I 75, I 70, F 26 1] ]

/-- The input columns the 19 tuple entries are zipped with in
`build_portfolio` (columns 5 and 10 are the formula columns). -/
def portfolio_input_cols : List Nat :=
  [1, 2, 3, 4, 6, 7, 8, 9, 11, 12, 13, 14, 15, 16, 17, 18, 19, 20, 21]

/-- The data-row writes of `build_portfolio`: for company `i` (row
`r = i + 2`) the zipped input cells, then the `nav_pct` formula in column 5
and the `ev_arr` formula in column 10. -/
def portfolio_data_writes : List CellWrite :=
  (companies.enum.map (fun p =>
    let r := p.1 + 2
    (portfolio_input_cols.zip p.2).map (fun q => ((r, q.1), q.2))
    ++ [((r, 5), S ("=IFERROR(D" ++ toString r ++ "/SUM($D$2:$D$11)*100,0)")),
        ((r, 10), S ("=IFERROR(L" ++ toString r ++ "/B" ++ toString r ++ ",0)"))])).flatten

/-- The summary-row writes of `build_portfolio` (row `SUMR = 13`): the
"TOTAL / AVG" label, then for each column 2–21 a SUM formula, an AVERAGE
formula, or `None` (the final `else` branch is unreachable but kept). -/
def portfolio_summary_writes : List CellWrite :=
  ((13, 1), S "TOTAL / AVG") ::
  (List.range' 2 20).map (fun col =>
    let cl := get_column_letter col
    if [2, 4, 12].contains col then
      ((13, col), S ("=SUM(" ++ cl ++ "2:" ++ cl ++ "11)"))
    else if [3, 8, 9, 10, 18, 19, 20].contains col then
      ((13, col), S ("=IFERROR(AVERAGE(" ++ cl ++ "2:" ++ cl ++ "11),0)"))
    else if [5, 6, 7, 11, 13, 14, 15, 16, 17, 21].contains col then
      ((13, col), S ("=IFERROR(AVERAGE(" ++ cl ++ "2:" ++ cl ++ "11),0)"))
    else ((13, col), none))

/-- Model of `build_portfolio`. -/
def build_portfolio : Sheet :=
  { name := "Portfolio"
  , cells := write_headers 1 portfolio_headers
      ++ portfolio_data_writes ++ portfolio_summary_writes
  , dvs := [ add_dropdown "P" 2 11 "\"Star,Core,High Growth,Watch\""
           , add_dropdown "N" 2 11 "\"Series A,Series B,Series C,Series D,Series E,Pre-IPO\"" ] }

/-! ## Sheet 2: Funds (`build_funds`) -/

/-- The main fund table headers of `build_funds`. -/
def funds_main_hdrs : List String :=
  ["fund", "vintage", "size_m", "irr", "tvpi", "dpi", "nav_m", "realized_m"]

/-- The `funds_data` table (fund, vintage, size_m, irr, tvpi, dpi, nav_m,
realized_m). -/
def funds_data : List (List (Option Value)) :=
  [ [S "Fund I", I 2008, S "€30M", F 221 1, F 31 1, F 31 1, I 0, I 93],
    [S "Fund II", I 2011, S "€80M", F 198 1, F 27 1, F 27 1, I 0, I 200],
    [S "Fund III", I 2013, S "€150M", F 172 1, F 24 1, F 19 1, I 75, I 285],
    [S "Fund IV", I 2018, S "€220M", F 165 1, F 21 1, F 8 1, I 256, I 176],
    [S "Fund V", I 2020, S "€353M", F 148 1, F 17 1, F 3 1, I 420, I 106],
    [S "Fund VI", I 2022, S "$431M", F 124 1, F 14 1, F 0 1, I 294, I 0] ]

/-- The twelve quarter labels of the IRR trajectory section. -/
def quarters : List String :=
  [quar "Q2" "22", quar "Q3" "22", quar "Q4" "22", quar "Q1" "23",
   quar "Q2" "23", quar "Q3" "23", quar "Q4" "23", quar "Q1" "24",
   quar "Q2" "24", quar "Q3" "24", quar "Q4" "24", quar "Q1" "25"]

/-- The `traj_data` table (fund name, twelve quarterly IRR floats). -/
def traj_data : List (String × List (Option Value)) :=
  [ ("Fund III", [F 212 1, F 208 1, F 201 1, F 195 1, F 190 1, F 186 1,
                  F 182 1, F 178 1, F 175 1, F 173 1, F 172 1, F 172 1]),
    ("Fund IV", [F 120 1, F 132 1, F 141 1, F 150 1, F 158 1, F 162 1,
                 F 165 1, F 165 1, F 164 1, F 165 1, F 165 1, F 165 1]),
    ("Fund V", [F 51 1, F 68 1, F 82 1, F 95 1, F 108 1, F 120 1,
                F 129 1, F 136 1, F 142 1, F 146 1, F 148 1, F 148 1]),
    ("Fund VI", [F 0 1, F 0 1, F 21 1, F 45 1, F 62 1, F 78 1,
                 F 89 1, F 102 1, F 108 1, F 112 1, F 118 1, F 124 1]) ]

/-- The `pme_data` table (benchmark name, six PME ratios). -/
def pme_data : List (String × List (Option Value)) :=
  [ ("vs MSCI World", [F 162 2, F 147 2, F 138 2, F 129 2, F 118 2, F 112 2]),
    ("vs NASDAQ", [F 138 2, F 125 2, F 118 2, F 108 2, F 98 2, F 102 2]) ]

/-- Model of `build_funds`: the main table (rows 1–7), the quarterly IRR
trajectory (title row 10, headers row 11, data rows 12–15), and the PME
section (title row 18 = `pme_start`, headers row 19, data rows 20–21). -/
def build_funds : Sheet :=
  { name := "Funds"
  , cells := write_headers 1 funds_main_hdrs
      ++ (funds_data.enum.map (fun p => row_writes (p.1 + 2) p.2)).flatten
      ++ [((10, 1), S ("Quarterly IRR Trajectory (" ++ quar "Q2" "22" ++ " – "
            ++ quar "Q1" "25" ++ ")"))]
      ++ write_headers 11 ("fund" :: quarters)
      ++ (traj_data.enum.map (fun p =>
            ((10 + 2 + p.1, 1), S p.2.1) ::
            p.2.2.enum.map (fun q => ((10 + 2 + p.1, q.1 + 2), q.2)))).flatten
      ++ [((18, 1), S "PME Analysis")]
      ++ write_headers 19 ["benchmark", "Fund I", "Fund II", "Fund III",
            "Fund IV", "Fund V", "Fund VI"]
      ++ (pme_data.enum.map (fun p =>
            ((18 + 2 + p.1, 1), S p.2.1) ::
            p.2.2.enum.map (fun q => ((18 + 2 + p.1, q.1 + 2), q.2)))).flatten }

/-! ## Sheet 3: LPs (`build_lps`) -/

/-- The LPs header row. -/
def lps_headers : List String :=
  ["name", "city", "type", "commit_m", "called_m", "dist_m",
   "nav_m", "irr", "tvpi", "unfunded_m"]

/-- The `lps` table (name, city, type, commit_m, called_m, dist_m, nav_m,
irr, tvpi); column 10 (`unfunded_m`) is a formula. -/
def lps : List (List (Option Value)) :=
  [ [S "Schroder Adveq", S "Zurich", S "Fund of Funds", I 65, F 442 1, F 88 1,
     I 52, F 141 1, F 138 2],
    [S "APG", S "Amsterdam", S "Pension", I 50, F 340 1, F 62 1,
     I 41, F 138 1, F 139 2],
    [S "Neuberger Berman", S "New York", S "FoF", I 45, F 306 1, F 54 1,
     I 36, F 135 1, F 135 2],
    [S "British Business Bk", S "Sheffield", S "Gov", I 40, F 272 1, F 48 1,
     I 32, F 129 1, F 135 2],
    [S "EIF", S "Luxembourg", S "DFI", I 35, F 238 1, F 39 1,
     I 27, F 132 1, F 130 2],
    [S "Adams Street", S "Chicago", S "FoF", I 30, F 204 1, F 32 1,
     I 24, F 128 1, F 133 2],
    [S "Isomer Capital", S "London", S "FoF", I 25, F 170 1, F 25 1,
     F 195 1, F 126 1, F 129 2],
    [S "GP Commitment", S "London", S "GP", I 20, F 136 1, F 21 1,
     I 16, F 144 1, F 133 2] ]

/-- Model of `build_lps`: headers, eight data rows with the `unfunded`
formula in column 10, and the summary row 11 (`SUMR = len(lps) + 3`). -/
def build_lps : Sheet :=
  { name := "LPs"
  , cells := write_headers 1 lps_headers
      ++ (lps.enum.map (fun p =>
            let r := p.1 + 2
            row_writes r p.2
            ++ [((r, 10), S ("=IFERROR(D" ++ toString r ++ "-E" ++ toString r ++ ",0)"))])).flatten
      ++ (((11, 1), S "TOTAL / AVG") ::
          (List.range' 2 9).map (fun col =>
            let cl := get_column_letter col
            if [4, 5, 6, 7, 10].contains col then
              ((11, col), S ("=SUM(" ++ cl ++ "2:" ++ cl ++ "9)"))
            else if [8, 9].contains col then
              ((11, col), S ("=IFERROR(AVERAGE(" ++ cl ++ "2:" ++ cl ++ "9),0)"))
            else ((11, col), none))) }

/-! ## Sheet 4: ExitPipeline (`build_exit_pipeline`) -/

/-- The ExitPipeline header row. -/
def exit_headers : List String :=
  ["name", "type", "advisor", "timing", "bear", "base", "bull",
   "bear_prob", "base_prob", "bull_prob", "pwav_proceeds"]

/-- The `exits` table (name, type, advisor, timing, bear, base, bull,
bear_prob, base_prob, bull_prob); column 11 is the `pwav_proceeds`
formula. -/
def exits : List (List (Option Value)) :=
  [ [S "Q-CTRL", S "Secondary", S "Lazard", S "Q3 2025",
     I 15, I 18, I 22, F 15 2, F 55 2, F 30 2],
    [S "Matillion", S "IPO", S "GS/MS", S "Q4 2025",
     I 22, I 32, I 48, F 20 2, F 50 2, F 30 2],
    [S "Quantexa", S "Strategic", S "Internal", S "Q1 2026",
     I 32, I 46, I 62, F 20 2, F 50 2, F 30 2],
    [S "Ledger", S "M&A", S "Thoma Bravo", S "Q2 2026",
     I 38, I 55, I 72, F 15 2, F 55 2, F 30 2],
    [S "Wayflyer", S "IPO", S "TBD", S "2027",
     I 22, I 36, I 52, F 25 2, F 45 2, F 30 2] ]

/-- Model of `build_exit_pipeline`: headers, five data rows with the
`pwav_proceeds` formula in column 11, and the TOTAL row 8 with SUMs over
columns 5, 6, 7 and 11. -/
def build_exit_pipeline : Sheet :=
  { name := "ExitPipeline"
  , cells := write_headers 1 exit_headers
      ++ (exits.enum.map (fun p =>
            let r := p.1 + 2
            row_writes r p.2
            ++ [((r, 11), S ("=IFERROR(E" ++ toString r ++ "*H" ++ toString r
                  ++ "+F" ++ toString r ++ "*I" ++ toString r
                  ++ "+G" ++ toString r ++ "*J" ++ toString r ++ ",0)"))])).flatten
      ++ (((8, 1), S "TOTAL") ::
          [5, 6, 7, 11].map (fun col =>
            let cl := get_column_letter col
            ((8, col), S ("=SUM(" ++ cl ++ "2:" ++ cl ++ "6)"))))
  , dvs := [ add_dropdown "B" 2 6 "\"Secondary,IPO,Strategic,M&A\"" ] }

/-! ## Sheet 5: Pipeline (`build_pipeline`) -/

/-- The Pipeline header row. -/
def pipeline_headers : List String :=
  ["name", "sector", "stage", "arr_m", "arr_gr_pct", "valuation_m",
   "ev_arr", "confidence"]

/-- The `pipeline` table: columns 1–6 (name, sector, stage, arr_m,
arr_gr_pct, valuation_m) and the confidence value for column 8; the `None`
placeholder of the tuple (`ev_arr`) is replaced by the formula in
column 7. -/
def pipeline : List (List (Option Value) × Option Value) :=
  [ ([S "Tractable", S "AI Insurance", S "Diligence", I 45, I 65, I 540], S "High"),
    ([S "Corelight", S "Cybersecurity", S "Diligence", I 55, I 50, I 620], S "High"),
    ([S "Monite", S "B2B FinTech", S "Diligence", I 12, I 180, I 95], S "Medium"),
    ([S "Rasa", S "Convo AI", S "Diligence", I 18, I 95, I 140], S "Medium"),
    ([S "Sertis", S "AI/Data", S "IC Ready", I 22, I 110, I 175], S "High"),
    ([S "Form3", S "Payments Infra", S "IC Ready", I 28, I 75, I 225], S "High"),
    ([S "Synthesia", S "AI Video", S "Tracking", I 32, I 85, I 280], S "Medium"),
    ([S "Cogni", S "Neo-banking", S "Tracking", I 8, I 200, I 65], S "Low"),
    ([S "Proxima", S "eCommerce AI", S "Tracking", I 14, I 90, I 88], S "Medium"),
    ([S "SafetyWing", S "InsurTech", S "Tracking", I 22, I 55, I 140], S "Medium"),
    ([S "Supermetrics", S "Marketing Tech", S "Tracking", I 42, I 25, I 310], S "Low"),
    ([S "Tessian", S "Email Security", S "Tracking", I 28, I 40, I 195], S "Medium") ]

/-- Model of `build_pipeline`: headers, twelve data rows with the `ev_arr`
formula in column 7 and confidence in column 8, and the two dropdowns. -/
def build_pipeline : Sheet :=
  { name := "Pipeline"
  , cells := write_headers 1 pipeline_headers
      ++ (pipeline.enum.map (fun p =>
            let r := p.1 + 2
            row_writes r p.2.1
            ++ [((r, 7), S ("=IFERROR(F" ++ toString r ++ "/D" ++ toString r ++ ",0)")),
                ((r, 8), p.2.2)])).flatten
  , dvs := [ add_dropdown "C" 2 13 "\"Diligence,IC Ready,Tracking,Passed\""
           , add_dropdown "H" 2 13 "\"High,Medium,Low\"" ] }

/-! ## Sheet 6: MacroScenarios (`build_macro_scenarios`) -/

/-- The MacroScenarios header row. -/
def macro_headers : List String :=
  ["scenario", "arr_gr", "gm_delta", "nrr", "ev_mult_delta",
   "dr", "timing_mo", "rates_bp", "fx_pct", "writeoff_pct", "probability"]

/-- The `scenarios` table: each row is the scenario name followed by ten
integers; entry 11 (index 10) is the probability. -/
def macro_scenarios : List (List (Option Value)) :=
  [ [S "Base", I 55, I 0, I 118, I 0, I 8, I 0, I 0, I 0, I 0, I 30],
    [S "Soft Landing", I 75, I 3, I 128, I 15, I 8, I (-3), I (-50), I 3, I 0, I 25],
    [S "Mild Recession", I 30, I (-5), I 105, I (-20), I 10, I 6, I 100, I (-5), I 5, I 20],
    [S "Deep Recession", I (-10), I (-12), I 88, I (-40), I 13, I 18, I 200, I (-10), I 15, I 10],
    [S "Tech Correction", I 35, I (-2), I 108, I (-45), I 12, I 12, I 0, I 0, I 8, I 10],
    [S "AI Acceleration", I 95, I 5, I 138, I 30, I 8, I (-6), I 0, I 5, I 0, I 5] ]

/-- The probability column of the `scenarios` table (tuple entry 11). -/
def macro_probabilities : List Int :=
  macro_scenarios.filterMap (fun row =>
    match row.get? 10 with
    | some (some (Value.i n)) => some n
    | _ => none)

/-- Model of `build_macro_scenarios`: headers, six data rows, the warning
note in row 8 (`note_row = NROWS + 2`), the "Probability Sum" check row 9
(`sumr = NROWS + 3`) with the `=SUM(K2:K7)` formula in column 11, and the
decimal between-0-and-100 data validation on `K2:K7`. -/
def build_macro_scenarios : Sheet :=
  { name := "MacroScenarios"
  , cells := write_headers 1 macro_headers
      ++ (macro_scenarios.enum.map (fun p => row_writes (p.1 + 2) p.2)).flatten
      ++ [((9, 1), S "Probability Sum"),
          ((9, 11), S ("=SUM(" ++ get_column_letter 11 ++ "2:"
                        ++ get_column_letter 11 ++ "7)")),
          ((8, 1), S "⚠ Probabilities must sum to 100")]
  , dvs := [ { dvType := "decimal", operator := some "between",
               formula1 := some "0", formula2 := some "100",
               showErrorMessage := true, errorTitle := some "Invalid",
               errorMsg := some "Probability must be between 0 and 100.",
               sqref := "K2:K7" } ] }

/-! ## Sheet 7: CapitalCalls (`build_capital_calls`) -/

/-- The CapitalCalls header row (written into row 2). -/
def capital_headers : List String :=
  ["quarter", "calls_m", "dist_m", "nav_m",
   "cumulative_calls", "cumulative_dist", "DPI"]

/-- The `quarters_data` table (quarter, calls_m, dist_m, nav_m). -/
def quarters_data : List (String × Int × Int × Int) :=
  [ (quar "Q1" "23", 95, 0, 90),
    (quar "Q2" "23", 28, 0, 118),
    (quar "Q3" "23", 22, 0, 142),
    (quar "Q4" "23", 30, 2, 168),
    (quar "Q1" "24", 25, 3, 198),
    (quar "Q2" "24", 18, 4, 224),
    (quar "Q3" "24", 22, 5, 248),
    (quar "Q4" "24", 28, 8, 268),
    (quar "Q1" "25", 16, 15, 294) ]

/-- Model of `build_capital_calls`: the title cell, headers in row 2, nine
data rows (rows 3–11) with running-sum and DPI formulas in columns 5–7, and
the TOTAL row 13 (`SUMR = NROWS + 4`). -/
def build_capital_calls : Sheet :=
  { name := "CapitalCalls"
  , cells := [((1, 1), S "Fund VI — Quarterly Capital Activity")]
      ++ write_headers 2 capital_headers
      ++ (quarters_data.enum.map (fun p =>
            let r := p.1 + 3
            [((r, 1), S p.2.1),
             ((r, 2), I p.2.2.1),
             ((r, 3), I p.2.2.2.1),
             ((r, 4), I p.2.2.2.2),
             ((r, 5), S ("=SUM(B$3:B" ++ toString r ++ ")")),
             ((r, 6), S ("=SUM(C$3:C" ++ toString r ++ ")")),
             ((r, 7), S ("=IFERROR(F" ++ toString r ++ "/431,0)"))])).flatten
      ++ (((13, 1), S "TOTAL") ::
          ([2, 3, 4].map (fun col =>
            let cl := get_column_letter col
            ((13, col), S ("=SUM(" ++ cl ++ "3:" ++ cl ++ "11)")))
           ++ [((13, 5), S "=E11"), ((13, 6), S "=F11"), ((13, 7), S "=G11")])) }

/-! ## Sheet 8: Benchmarks (`build_benchmarks`) -/

/-- The IRR benchmark section headers (row 2). -/
def irr_hdrs : List String :=
  ["metric", "Fund I", "Fund II", "Fund III", "Fund IV", "Fund V", "Fund VI"]

/-- The FX section headers (row 9). -/
def fx_hdrs : List String := ["currency", "exposure_usdm", "hedge_status", "hedge_pct"]

/-- The `fx_data` table (currency, exposure_usdm, hedge_status, hedge_pct). -/
def fx_data : List (List (Option Value)) :=
  [ [S "GBP", I 77, S "Unhedged", I 0],
    [S "EUR", I 32, S "40% Hedged", I 40],
    [S "AUD", I 82, S "Unhedged", I 0],
    [S "ILS", I 21, S "Unhedged", I 0] ]

/-- Model of `build_benchmarks`: the IRR section (title row 1, headers
row 2, data rows 3–5) and the FX section (title row 8, headers row 9, data
rows 10–13, TOTAL row 15 with `=SUM(B10:B13)`). -/
def build_benchmarks : Sheet :=
  { name := "Benchmarks"
  , cells := [((1, 1), S "IRR Benchmarks by Fund")]
      ++ write_headers 2 irr_hdrs
      ++ (((3, 1), S "Top Quartile IRR %") ::
          [I 28, I 25, I 22, I 20, I 18, I 16].enum.map
            (fun q => ((3, q.1 + 2), q.2)))
      ++ (((4, 1), S "Median IRR %") ::
          [I 22, I 20, I 17, I 15, I 13, I 11].enum.map
            (fun q => ((4, q.1 + 2), q.2)))
      ++ (((5, 1), S "GP Fund IRR %") ::
          [F 221 1, F 198 1, F 172 1, F 165 1, F 148 1, F 124 1].enum.map
            (fun q => ((5, q.1 + 2), q.2)))
      ++ [((8, 1), S "FX Exposure")]
      ++ write_headers 9 fx_hdrs
      ++ (fx_data.enum.map (fun p => row_writes (p.1 + 10) p.2)).flatten
      ++ [((15, 1), S "TOTAL"), ((15, 2), S "=SUM(B10:B13)")] }

/-! ## Sheet 9: WatchList (`build_watchlist`) -/

/-- The WatchList header row. -/
def watchlist_headers : List String :=
  ["name", "flag", "threshold", "current_value", "status"]

/-- Model of `build_watchlist`: headers, the hardcoded Q-CTRL BREACH row 2
and d-Matrix WARNING row 3, and the Sanity (row 4) and Headway (row 5) rows
whose `current_value` column holds a VLOOKUP into Portfolio (positional
column index 3 resp. 9) and whose `status` column holds an IF formula. -/
def build_watchlist : Sheet :=
  { name := "WatchList"
  , cells := write_headers 1 watchlist_headers
      ++ [((2, 1), S "Q-CTRL"), ((2, 2), S "Concentration"),
          ((2, 3), S "25% max"), ((2, 4), F 279 1), ((2, 5), S "BREACH"),
          ((3, 1), S "d-Matrix"), ((3, 2), S "Runway"),
          ((3, 3), S "12mo min"), ((3, 4), S "14mo"), ((3, 5), S "WARNING"),
          ((4, 1), S "Sanity"), ((4, 2), S "Growth Decel"),
          ((4, 3), S "35% min"),
          ((4, 4), S "=IFERROR(VLOOKUP(\"Sanity\",Portfolio!A:C,3,0),35)"),
          ((4, 5), S "=IF(D4<35,\"BREACH\",IF(D4<45,\"WARNING\",\"OK\"))"),
          ((5, 1), S "Headway"), ((5, 2), S "NRR<100%"),
          ((5, 3), S "100% min"),
          ((5, 4), S "=IFERROR(VLOOKUP(\"Headway\",Portfolio!A:I,9,0),95)"),
          ((5, 5), S "=IF(D5<100,\"BREACH\",\"WARNING\")")] }

/-! ## Sheet 10: Instructions (`build_instructions`) -/

/-- The 35 text lines of the Instructions sheet, written into column 1 of
rows 1–35. -/
def instructions_lines : List String :=
  [ "GPBullhound_LiveData.xlsx — Setup & Publishing Guide",
    "",
    "1. LIVE DATA FEED — Publishing Sheet 1 (Portfolio) as CSV",
    "   a. Open this workbook in Excel for the web (Office 365).",
    "   b. Go to File > Save As > Download a Copy — or use the Share menu.",
    "   c. To publish as CSV: File > Export > Change File Type > CSV.",
    "   d. Save to OneDrive / SharePoint for continuous sync.",
    "   e. Copy the share link (view-only) for dashboard consumption.",
    "",
    "2. CONNECTING TO THE BULLHOUND DASHBOARD",
    "   a. In bullhound_dashboard.html, update DATA_CSV_URL constant",
    "      to the published CSV share link from step 1e.",
    "   b. The dashboard auto-refreshes every 5 minutes via fetch().",
    "   c. Ensure CORS headers are set on the CSV host if self-hosted.",
    "",
    "3. FORMULA COLOUR CONVENTION",
    "   Blue  (#4A8BD4) — manually entered input values.",
    "   Green (#2ECC8A) — formula-derived values (do NOT overwrite).",
    "   Red   (#E05555) — BREACH cells requiring immediate attention.",
    "",
    "4. DATA VALIDATION",
    "   • Portfolio!P  — status  : Star | Core | High Growth | Watch",
    "   • Portfolio!N  — stage   : Series A/B/C/D/E | Pre-IPO",
    "   • Pipeline!H   — confidence: High | Medium | Low",
    "   • MacroScenarios!K — probability (must sum to 100)",
    "",
    "5. RECALCULATION",
    "   Run:  python scripts/recalc.py",
    "   This script opens the workbook, iterates all cells, and reports",
    "   any formula errors (#DIV/0!, #REF!, #N/A, etc.).",
    "",
    "6. ADDING NEW PORTFOLIO COMPANIES",
    "   a. Insert a row in Portfolio rows 2–11 (extend range to 12).",
    "   b. Update $D$2:$D$11 references in nav_pct formulas to match.",
    "   c. Re-run recalc.py to confirm zero errors." ]

/-- Model of `build_instructions`: each line into column 1 of row `i + 1`. -/
def build_instructions : Sheet :=
  { name := "Instructions"
  , cells := instructions_lines.enum.map (fun p => ((p.1 + 1, 1), S p.2)) }

/-! ## The generator's `main` -/

/-- The workbook produced by `generate_excel.main`: the ten sheets in
creation order. -/
def generated_workbook : Workbook :=
  [ build_portfolio, build_funds, build_lps, build_exit_pipeline,
    build_pipeline, build_macro_scenarios, build_capital_calls,
    build_benchmarks, build_watchlist, build_instructions ]

/-- File operations a script run performs on the workbook file. -/
inductive FileOp where
  | load
  | save
deriving DecidableEq, Repr

/-- Model of `generate_excel.main`: builds the workbook and performs exactly
one `wb.save(out_path)`. -/
def generate_main : Workbook × List FileOp := (generated_workbook, [FileOp.save])

/-! ## The validator (`scripts/recalc.py`) -/

/-- The `EXCEL_ERRORS` set of `recalc.py` (a Python set literal; order is
irrelevant, only membership is used). -/
def EXCEL_ERRORS : List String :=
  ["#DIV/0!", "#REF!", "#N/A", "#NAME?", "#VALUE!", "#NULL!", "#NUM!"]

/-- The error test of `verify_workbook` on one cell:
`str(val).strip().upper() in of e.upper() for e in EXCEL_ERRORS`; a `None`
cell is skipped (`continue`). -/
def isErrorVal : Option Value → Bool
  | none => false
  | some v => (EXCEL_ERRORS.map pyUpper).contains (pyUpper (pyStrip (pyStr v)))

/-- The formula test of `verify_workbook` on one cell:
`str(val).strip().startswith("=")`; a `None` cell is skipped. -/
def isFormulaVal : Option Value → Bool
  | none => false
  | some v => startswith (pyStrip (pyStr v)) "="

/-- The entries `verify_workbook` appends to `errors_found` for one sheet:
one `(sheet name, coordinate)` pair per error cell. -/
def sheet_error_entries (ws : Sheet) : List (String × Coord) :=
  ((sheetCells ws.cells).filter (fun w => isErrorVal w.2)).map (fun w => (ws.name, w.1))

/-- The full `errors_found` list over all sheets of the workbook. -/
def errors_found (wb : Workbook) : List (String × Coord) :=
  (wb.map sheet_error_entries).flatten

/-- The `error_cells` counter of `verify_workbook`: the number of error
cells across all sheets. -/
def error_cells_count (wb : Workbook) : Nat :=
  (wb.map (fun ws => (sheetCells ws.cells).countP (fun w => isErrorVal w.2))).sum

/-- Model of `verify_workbook(path)`: given `none` when the file does not
exist it prints an error and returns 1 without opening the file; otherwise
it loads the workbook (one file open), scans it, and returns
`len(errors_found)` when errors were found, else 0.  The second component
records the file operations performed. -/
def verify_workbook : Option Workbook → Nat × List FileOp
  | none => (1, [])
  | some wb =>
    let found := errors_found wb
    (if found = [] then 0 else found.length, [FileOp.load])

/-- The `expected` sheet list of `check_sheet_names`. -/
def expected_sheets : List String :=
  ["Portfolio", "Funds", "LPs", "ExitPipeline", "Pipeline",
   "MacroScenarios", "CapitalCalls", "Benchmarks", "WatchList", "Instructions"]

/-- The workbook's `wb.sheetnames`. -/
def sheetnames (wb : Workbook) : List String := wb.map Sheet.name

/-- Model of `check_sheet_names`: the expected sheets missing from the
actual sheet-name list (`[s for s in expected if s not in actual]`). -/
def check_sheet_names (actual : List String) : List String :=
  expected_sheets.filter (fun s => !(actual.contains s))

/-- The `required` header list of `check_portfolio_headers` (the same
21 names `build_portfolio` writes). -/
def required_headers : List String :=
  ["name", "arr", "arr_gr", "nav", "nav_pct", "moic", "burn",
   "gm", "nrr", "ev_arr", "ev_arr_entry", "valuation",
   "sector", "stage", "geo", "status", "funds",
   "esg_e", "esg_s", "esg_g", "lever"]

/-- The `actual` list of `check_portfolio_headers`:
`[ws.cell(row=1, column=i+1).value for i in range(len(required))]`. -/
def portfolio_actual (ws : Sheet) : List (Option Value) :=
  (List.range required_headers.length).map (fun i => ws.get (1, i + 1))

/-- Model of `check_portfolio_headers`: the `(required, actual)` pairs that
differ (`req != act` — a `None` or non-string cell always differs from the
required string). -/
def check_portfolio_headers (ws : Sheet) : List (String × Option Value) :=
  (required_headers.zip (portfolio_actual ws)).filter
    (fun p => !(some (Value.s p.1) == p.2))

/-- One spot check of `check_formula_presence`; `row`/`col` spell out the A1
cell address of the source (`E2` is row 2 column 5, and so on). -/
structure FormulaCheck where
  sheet : String
  row : Nat
  col : Nat
  desc : String
deriving DecidableEq, Repr

/-- The twelve spot checks of `check_formula_presence`:
Portfolio!E2, Portfolio!J2, LPs!J2, ExitPipeline!K2, Pipeline!G2,
CapitalCalls!E3, CapitalCalls!F3, CapitalCalls!G3, WatchList!D4,
WatchList!E4, WatchList!D5, WatchList!E5. -/
def formula_checks : List FormulaCheck :=
  [ ⟨"Portfolio", 2, 5, "nav_pct formula"⟩,
    ⟨"Portfolio", 2, 10, "ev_arr formula"⟩,
    ⟨"LPs", 2, 10, "unfunded formula"⟩,
    ⟨"ExitPipeline", 2, 11, "pwav_proceeds formula"⟩,
    ⟨"Pipeline", 2, 7, "ev_arr formula"⟩,
    ⟨"CapitalCalls", 3, 5, "cumulative_calls formula"⟩,
    ⟨"CapitalCalls", 3, 6, "cumulative_dist formula"⟩,
    ⟨"CapitalCalls", 3, 7, "DPI formula"⟩,
    ⟨"WatchList", 4, 4, "Sanity VLOOKUP"⟩,
    ⟨"WatchList", 4, 5, "Sanity IF status"⟩,
    ⟨"WatchList", 5, 4, "Headway VLOOKUP"⟩,
    ⟨"WatchList", 5, 5, "Headway IF status"⟩ ]

/-- Sheet lookup `wb[name]` (as an `Option`; `none` is openpyxl's
`KeyError`). -/
def findSheet (wb : Workbook) (n : String) : Option Sheet :=
  wb.find? (fun ws => ws.name == n)

/-- Python truthiness of a cell value, for the `val or ""` idiom. -/
def pyFalsy : Value → Bool
  | .s str => str == ""
  | .i n => n == 0
  | .f m _ => m == 0

/-- Model of `str(cell.value or "")`. -/
def valueOrEmpty : Option Value → String
  | none => ""
  | some v => if pyFalsy v then "" else pyStr v

/-- Model of `check_formula_presence`: one failure entry per missing sheet
or per spot-checked cell whose `str(value or "")` does not start with
`=`. -/
def check_formula_presence (wb : Workbook) : List String :=
  formula_checks.filterMap (fun chk =>
    match findSheet wb chk.sheet with
    | none => some ("Missing sheet: " ++ chk.sheet)
    | some ws =>
      let v := valueOrEmpty (ws.get (chk.row, chk.col))
      if !(startswith v "=") then
        some ("[" ++ chk.sheet ++ "] " ++ chk.desc ++ ": expected formula")
      else none)

/-- The observable outcome of a `recalc.py` run: the process exit code and
the file operations performed on the workbook file. -/
structure RunResult where
  exitCode : Nat
  fileOps : List FileOp
deriving DecidableEq, Repr

/-- Model of `recalc.main`.  Input `none` means the workbook file does not
exist: main prints an error and exits with code 1 before opening anything.
Otherwise main loads the workbook (first file open) and runs the checks; if
the Portfolio sheet is absent, `wb["Portfolio"]` inside
`check_portfolio_headers` raises an uncaught `KeyError`, terminating the
process with exit code 1 after the single load.  Otherwise
`verify_workbook(WORKBOOK_PATH)` re-loads the workbook (second file open)
and main exits 0 exactly when
`error_count + structural_issues == 0`. -/
def recalc_main : Option Workbook → RunResult
  | none => { exitCode := 1, fileOps := [] }
  | some wb =>
    let missing := check_sheet_names (sheetnames wb)
    match findSheet wb "Portfolio" with
    | none => { exitCode := 1, fileOps := [FileOp.load] }
    | some ps =>
      let mismatches := check_portfolio_headers ps
      let failures := check_formula_presence wb
      let v := verify_workbook (some wb)
      let total := v.1 + missing.length + mismatches.length + failures.length
      { exitCode := if total = 0 then 0 else 1, fileOps := FileOp.load :: v.2 }

/-! ## Auxiliary definitions for the claims -/

/-- Splits a character list at every comma (model of a top-level split on
`,`; in both WatchList VLOOKUP formulas no argument before the column index
contains a comma, so the third comma-separated field of the formula text is
exactly the positional column index passed to VLOOKUP). -/
def splitOnComma (l : List Char) : List (List Char) :=
  l.foldr (fun c acc =>
    if c = ',' then [] :: acc
    else match acc with
      | [] => [[c]]
      | h :: t => (c :: h) :: t) [[]]

/-- Parses a non-empty all-digit character list as a natural number. -/
def digitsToNat (l : List Char) : Option Nat :=
  if l ≠ [] ∧ l.all Char.isDigit then
    some (l.foldl (fun n c => n * 10 + (c.toNat - 48)) 0)
  else none

/-- The positional column-index argument of the VLOOKUP call in a WatchList
formula: the third comma-separated field of the formula text, parsed as a
number. -/
def vlookup_col_index (f : String) : Option Nat :=
  ((splitOnComma f.data).get? 2).bind digitsToNat

/-- Whether `pat` occurs as a contiguous sublist of the second argument. -/
def containsSub (pat : List Char) : List Char → Bool
  | [] => pat.isPrefixOf []
  | c :: cs => pat.isPrefixOf (c :: cs) || containsSub pat cs

/-- Every WatchList cell whose string value mentions VLOOKUP, with its
coordinate and formula text. -/
def watchlist_vlookup_cells : List (Coord × String) :=
  (sheetCells build_watchlist.cells).filterMap (fun w =>
    match w.2 with
    | some (Value.s f) => if containsSub "VLOOKUP".data f.data then some (w.1, f) else none
    | _ => none)

/-- The MacroScenarios sheet with the AI Acceleration probability (row 7,
column K) overwritten from 5 to 6, making the probability column sum to 101
instead of 100. -/
def tampered_macro_sheet : Sheet :=
  { build_macro_scenarios with
    cells := build_macro_scenarios.cells ++ [((7, 11), I 6)] }

/-- The generated workbook with the tampered MacroScenarios sheet: its
probabilities no longer sum to 100. -/
def tampered_workbook : Workbook :=
  [ build_portfolio, build_funds, build_lps, build_exit_pipeline,
    build_pipeline, tampered_macro_sheet, build_capital_calls,
    build_benchmarks, build_watchlist, build_instructions ]

/-- Some check of `recalc.main` reports an issue on the loaded workbook: a
missing expected sheet, a Portfolio header mismatch, a failed formula spot
check, or a non-zero error-cell count. -/
def hasIssue (wb : Workbook) : Prop :=
  check_sheet_names (sheetnames wb) ≠ [] ∨
  (∃ ps, findSheet wb "Portfolio" = some ps ∧ check_portfolio_headers ps ≠ []) ∨
  check_formula_presence wb ≠ [] ∨
  (verify_workbook (some wb)).1 ≠ 0

/-! ## Helper lemmas -/

/-- The length of `errors_found` equals the `error_cells` counter: one entry
is appended per error cell. -/
theorem errors_found_length (wb : Workbook) :
    (errors_found wb).length = error_cells_count wb := by
  unfold errors_found error_cells_count
  induction wb with
  | nil => rfl
  | cons ws t ih =>
    simp only [List.map_cons, List.flatten_cons, List.length_append, List.sum_cons, ih]
    congr 1
    simp [sheet_error_entries, List.countP_eq_length_filter]

/-- If the Portfolio sheet is absent from the workbook, `check_sheet_names`
reports it missing. -/
theorem portfolio_missing_of_find_none (wb : Workbook)
    (hfs : findSheet wb "Portfolio" = none) :
    check_sheet_names (sheetnames wb) ≠ [] := by
  intro hnil
  have hmem : "Portfolio" ∈ check_sheet_names (sheetnames wb) := by
    unfold check_sheet_names
    refine List.mem_filter.mpr ⟨by decide, ?_⟩
    simp only [Bool.not_eq_true']
    apply Bool.eq_false_iff.mpr
    intro hc
    obtain ⟨ws, hws, hname⟩ := List.mem_map.mp (List.mem_of_elem_eq_true hc)
    exact List.find?_eq_none.mp hfs ws hws (by simp [hname])
  rw [hnil] at hmem
  exact List.not_mem_nil _ hmem

/-- A zipped required/actual header list filters to empty exactly when every
actual entry equals the corresponding required name. -/
theorem zip_filter_nil_iff (R : List String) (A : List (Option Value))
    (h : R.length = A.length) :
    (R.zip A).filter (fun p => !(some (Value.s p.1) == p.2)) = [] ↔
      ∀ i, i < R.length → A.get? i = (R.get? i).map (fun r => some (Value.s r)) := by
  induction R generalizing A with
  | nil => simp
  | cons r rt ih =>
    cases A with
    | nil => simp at h
    | cons a ta =>
      have h' : rt.length = ta.length := by simpa using h
      by_cases hqa : some (Value.s r) = a
      · constructor
        · intro hf i hi
          have hf' : (rt.zip ta).filter (fun p => !(some (Value.s p.1) == p.2)) = [] := by
            simpa [List.filter_cons, hqa] using hf
          match i, hi with
          | 0, _ => simpa using hqa.symm
          | Nat.succ j, hj =>
            have hj' : j < rt.length := by simpa using hj
            simpa using (ih ta h').mp hf' j hj'
        · intro hp
          have ht : ∀ j, j < rt.length →
              ta.get? j = (rt.get? j).map (fun r => some (Value.s r)) := by
            intro j hj
            have := hp (j + 1) (by simpa using Nat.succ_lt_succ hj)
            simpa using this
          have := (ih ta h').mpr ht
          simpa [List.filter_cons, hqa] using this
      · constructor
        · intro hf
          exfalso
          simp [List.filter_cons, beq_iff_eq, hqa] at hf
        · intro hp
          exfalso
          have h0 := hp 0 (by simp)
          simp only [List.get?_cons_zero, Option.map_some'] at h0
          exact hqa (by simpa using h0.symm)

/-- The actual-header list read by `check_portfolio_headers` at position
`i < 21` is the cell in row 1, column `i + 1`. -/
theorem portfolio_actual_get (ws : Sheet) (i : Nat)
    (hi : i < required_headers.length) :
    (portfolio_actual ws).get? i = some (ws.get (1, i + 1)) := by
  unfold portfolio_actual
  rw [List.get?_map, List.get?_range (by simpa using hi)]
  rfl

/-! ## Claim theorems -/

/-- C2: for every workbook file that exists, `verify_workbook` counts a cell
as an error cell exactly when the cell's value, converted to a string,
stripped of surrounding whitespace and uppercased, equals one of the seven
literals `#DIV/0!`, `#REF!`, `#N/A`, `#NAME?`, `#VALUE!`, `#NULL!`,
`#NUM!`, and its return value equals the number of such cells across all
sheets. -/
theorem c2_verify_counts_error_literals (wb : Workbook) :
    (verify_workbook (some wb)).1 = error_cells_count wb ∧
    ∀ v : Value, isErrorVal (some v) = true ↔
      pyUpper (pyStrip (pyStr v)) ∈
        ["#DIV/0!", "#REF!", "#N/A", "#NAME?", "#VALUE!", "#NULL!", "#NUM!"] := by
  constructor
  · simp only [verify_workbook]
    by_cases h : errors_found wb = []
    · rw [if_pos h, ← errors_found_length wb, h]
      rfl
    · rw [if_neg h, errors_found_length]
  · intro v
    have hmap : EXCEL_ERRORS.map pyUpper =
        ["#DIV/0!", "#REF!", "#N/A", "#NAME?", "#VALUE!", "#NULL!", "#NUM!"] := by decide
    simp only [isErrorVal, hmap]
    exact List.elem_iff

/-- C2 witness: on the generated workbook `verify_workbook` returns the
error-cell count, and the cell value `#ref!` (stripped and uppercased) is
counted as an error cell. -/
theorem c2_witness :
    (verify_workbook (some [])).1 = error_cells_count [] ∧
    (isErrorVal (some (Value.s " #ref! ")) = true ↔
      pyUpper (pyStrip (pyStr (Value.s " #ref! "))) ∈
        ["#DIV/0!", "#REF!", "#N/A", "#NAME?", "#VALUE!", "#NULL!", "#NUM!"]) :=
  ⟨(c2_verify_counts_error_literals []).1,
   (c2_verify_counts_error_literals []).2 (Value.s " #ref! ")⟩

/-- C5: `recalc.main` exits non-zero exactly when the workbook file is
missing or at least one check reports an issue; with the file present and
no issue it exits 0. -/
theorem c5_exit_nonzero_iff_issue (file : Option Workbook) :
    (recalc_main file).exitCode ≠ 0 ↔
      (file = none ∨ ∃ wb, file = some wb ∧ hasIssue wb) := by
  cases file with
  | none => simp [recalc_main]
  | some wb =>
    have hr : (∃ wb', (some wb : Option Workbook) = some wb' ∧ hasIssue wb') ↔ hasIssue wb := by
      constructor
      · rintro ⟨wb', hw, hi⟩
        cases Option.some.inj hw
        exact hi
      · exact fun hi => ⟨wb, rfl, hi⟩
    have hnone : ((some wb : Option Workbook) = none) = False :=
      eq_false (by simp)
    simp only [recalc_main, hnone, false_or, hr]
    cases hfs : findSheet wb "Portfolio" with
    | none =>
      dsimp only
      constructor
      · intro _
        unfold hasIssue
        exact Or.inl (portfolio_missing_of_find_none wb hfs)
      · intro _
        exact one_ne_zero
    | some ps =>
      dsimp only
      have hi : hasIssue wb ↔
          (check_sheet_names (sheetnames wb) ≠ [] ∨
           check_portfolio_headers ps ≠ [] ∨
           check_formula_presence wb ≠ [] ∨
           (verify_workbook (some wb)).1 ≠ 0) := by
        unfold hasIssue
        rw [hfs]
        constructor
        · rintro (h | ⟨ps', hps', hne⟩ | h | h)
          · exact Or.inl h
          · cases Option.some.inj hps'
            exact Or.inr (Or.inl hne)
          · exact Or.inr (Or.inr (Or.inl h))
          · exact Or.inr (Or.inr (Or.inr h))
        · rintro (h | h | h | h)
          · exact Or.inl h
          · exact Or.inr (Or.inl ⟨ps, rfl, h⟩)
          · exact Or.inr (Or.inr (Or.inl h))
          · exact Or.inr (Or.inr (Or.inr h))
      rw [hi]
      by_cases ht : (verify_workbook (some wb)).1
          + (check_sheet_names (sheetnames wb)).length
          + (check_portfolio_headers ps).length
          + (check_formula_presence wb).length = 0
      · rw [if_pos ht]
        have h1 : (verify_workbook (some wb)).1 = 0 := by omega
        have h2 : check_sheet_names (sheetnames wb) = [] :=
          List.length_eq_zero.mp (by omega)
        have h3 : check_portfolio_headers ps = [] :=
          List.length_eq_zero.mp (by omega)
        have h4 : check_formula_presence wb = [] :=
          List.length_eq_zero.mp (by omega)
        simp [h1, h2, h3, h4]
      · rw [if_neg ht]
        refine iff_of_true one_ne_zero ?_
        by_contra hc
        push_neg at hc
        obtain ⟨h2, h3, h4, h1⟩ := hc
        exact ht (by
          rw [h1, h2, h3, h4]
          rfl)

/-- C5 witness: with the workbook file missing, `recalc.main` exits
non-zero. -/
theorem c5_witness : (recalc_main none).exitCode ≠ 0 :=
  (c5_exit_nonzero_iff_issue none).mpr (Or.inl rfl)

/-- C7: for every workbook sheet, the Portfolio header check reports a
mismatch exactly when some header cell (row 1, column `i + 1`) differs from
the name at position `i` of the enumerated required-header list, and
reports OK otherwise. -/
theorem c7_header_check_iff_mismatch (ws : Sheet) :
    check_portfolio_headers ws ≠ [] ↔
      ∃ i, i < required_headers.length ∧
        ws.get (1, i + 1) ≠ (required_headers.get? i).map Value.s := by
  have hlen : required_headers.length = (portfolio_actual ws).length := by
    simp [portfolio_actual]
  have hzf := zip_filter_nil_iff required_headers (portfolio_actual ws) hlen
  unfold check_portfolio_headers
  constructor
  · intro hne
    by_contra hc
    push_neg at hc
    apply hne
    apply hzf.mpr
    intro i hi
    rw [portfolio_actual_get ws i hi, hc i hi,
        List.get?_eq_get (show i < required_headers.length from hi)]
    rfl
  · rintro ⟨i, hi, hne⟩ hnil
    have hall := hzf.mp hnil i hi
    rw [portfolio_actual_get ws i hi,
        List.get?_eq_get (show i < required_headers.length from hi)] at hall
    apply hne
    rw [List.get?_eq_get (show i < required_headers.length from hi)]
    exact Option.some.inj hall

/-- C7 witness: a sheet with no written cells has only mismatching header
cells, so the check reports a mismatch. -/
theorem c7_witness :
    check_portfolio_headers { name := "Portfolio", cells := [] } ≠ [] :=
  (c7_header_check_iff_mismatch { name := "Portfolio", cells := [] }).mpr
    ⟨0, by decide, by decide⟩

/-- C9: a cell counted as a formula cell (stripped value starting with `=`)
is never counted as an error cell, so only error strings stored as literal
cell values are detected. -/
theorem c9_formula_cells_not_error_cells (v : Value)
    (h : isFormulaVal (some v) = true) : isErrorVal (some v) = false := by
  have h' : (['='] : List Char).isPrefixOf (pyStrip (pyStr v)).data = true := h
  obtain ⟨rest, hrest⟩ : ∃ rest, (pyStrip (pyStr v)).data = '=' :: rest := by
    cases hd : (pyStrip (pyStr v)).data with
    | nil => rw [hd] at h'; simp [List.isPrefixOf] at h'
    | cons c cs =>
      rw [hd] at h'
      have hc : ('=' : Char) = c := by
        simpa [List.isPrefixOf] using h'
      exact ⟨cs, by rw [hc]⟩
  show (EXCEL_ERRORS.map pyUpper).contains (pyUpper (pyStrip (pyStr v))) = false
  apply Bool.eq_false_iff.mpr
  intro hc
  have hmem := List.mem_of_elem_eq_true hc
  rw [show EXCEL_ERRORS.map pyUpper = EXCEL_ERRORS from by decide] at hmem
  have hup : (pyUpper (pyStrip (pyStr v))).data = '=' :: rest.map Char.toUpper := by
    show (pyStrip (pyStr v)).data.map Char.toUpper = _
    rw [hrest]
    rfl
  simp only [EXCEL_ERRORS, List.mem_cons, List.not_mem_nil, or_false] at hmem
  rcases hmem with h1 | h1 | h1 | h1 | h1 | h1 | h1 <;>
    · have hd := congrArg String.data h1
      rw [hup] at hd
      have hh := congrArg List.head? hd
      rw [List.head?_cons] at hh
      exact absurd hh (by decide)

/-- C9 witness: a concrete formula cell is counted as a formula cell and not
as an error cell. -/
theorem c9_witness :
    isFormulaVal (some (Value.s "=SUM(K2:K7)")) = true ∧
    isErrorVal (some (Value.s "=SUM(K2:K7)")) = false :=
  ⟨by decide, c9_formula_cells_not_error_cells (Value.s "=SUM(K2:K7)") (by decide)⟩

/-- C10: `check_sheet_names` flags only missing expected sheets: any
sheet-name list containing all ten expected names passes, whatever the
order and whatever extra sheets are present. -/
theorem c10_check_passes_when_all_present (names : List String)
    (h : ∀ e ∈ expected_sheets, e ∈ names) :
    check_sheet_names names = [] := by
  unfold check_sheet_names
  rw [List.filter_eq_nil_iff]
  intro s hs
  simp only [Bool.not_eq_true']
  intro hc
  have ht : names.contains s = true := List.elem_eq_true_of_mem (h s hs)
  rw [ht] at hc
  cases hc

/-- C10 witness: a reordered sheet list with an extra sheet still passes the
check. -/
theorem c10_witness :
    check_sheet_names ["Extra", "Instructions", "WatchList", "Benchmarks",
      "CapitalCalls", "MacroScenarios", "Pipeline", "ExitPipeline", "LPs",
      "Funds", "Portfolio"] = [] :=
  c10_check_passes_when_all_present _ (by decide)

/-- C8 counterexample: on the workbook produced by the generator, the
validator performs two file loads, not one. -/
theorem c8_counterexample_two_loads :
    ¬ ((recalc_main (some generated_workbook)).fileOps.length = 1) := by
  decide

/-- C8 amended: the generator saves the workbook file exactly once, but the
validator, run with the file present and the Portfolio sheet in it, opens
the file twice — once in `main` and once more inside `verify_workbook`. -/
theorem c8_amended_one_save_two_loads :
    generate_main.2 = [FileOp.save] ∧
    ∀ wb : Workbook, (sheetnames wb).contains "Portfolio" = true →
      (recalc_main (some wb)).fileOps = [FileOp.load, FileOp.load] := by
  refine ⟨rfl, fun wb h => ?_⟩
  obtain ⟨ps, hps⟩ : ∃ ps, findSheet wb "Portfolio" = some ps := by
    obtain ⟨ws, hws, hname⟩ := List.mem_map.mp (List.mem_of_elem_eq_true h)
    cases hfs : findSheet wb "Portfolio" with
    | some ps => exact ⟨ps, rfl⟩
    | none =>
      exact absurd (by simp [hname]) (List.find?_eq_none.mp hfs ws hws)
  simp [recalc_main, hps, verify_workbook]

/-- C8 witness: applied to the generated workbook, which contains the
Portfolio sheet. -/
theorem c8_amended_witness :
    (recalc_main (some generated_workbook)).fileOps = [FileOp.load, FileOp.load] :=
  c8_amended_one_save_two_loads.2 generated_workbook (by decide)

/-- C6: the generated workbook contains exactly the ten sheets, in order,
that the validator's sheet-name check expects. -/
theorem c6_sheet_names_in_order :
    sheetnames generated_workbook = expected_sheets ∧
    expected_sheets = ["Portfolio", "Funds", "LPs", "ExitPipeline", "Pipeline",
      "MacroScenarios", "CapitalCalls", "Benchmarks", "WatchList", "Instructions"] :=
  ⟨rfl, rfl⟩

/-- C3: the only WatchList formulas mentioning VLOOKUP are in cells D4 and
D5; their positional column-index arguments are 3 and 9, and positions 3
and 9 (1-based) of the Portfolio header row are `arr_gr` and `nrr`. -/
theorem c3_vlookup_indices_match_header_positions :
    watchlist_vlookup_cells.map (fun p => (p.1, vlookup_col_index p.2)) =
      [((4, 4), some 3), ((5, 4), some 9)] ∧
    portfolio_headers.get? (3 - 1) = some "arr_gr" ∧
    portfolio_headers.get? (9 - 1) = some "nrr" := by
  decide

/-- C1: the validator run on the workbook freshly produced by the generator
finds zero issues: all ten expected sheets are present, the Portfolio
header row matches the enumerated 21-name list, each of the twelve
designated spot-check cells holds a string starting with `=`, no cell's
value equals an Excel error literal, and `recalc.main` exits with
status 0. -/
theorem c1_validator_zero_issues_on_generated :
    check_sheet_names (sheetnames generated_workbook) = [] ∧
    (findSheet generated_workbook "Portfolio").map check_portfolio_headers = some [] ∧
    check_formula_presence generated_workbook = [] ∧
    (formula_checks.all (fun chk =>
      match findSheet generated_workbook chk.sheet with
      | some ws =>
        match ws.get (chk.row, chk.col) with
        | some (Value.s f) => startswith f "="
        | _ => false
      | none => false)) = true ∧
    error_cells_count generated_workbook = 0 ∧
    (recalc_main (some generated_workbook)).exitCode = 0 := by
  decide

/-- C4: the six hardcoded MacroScenarios probabilities sum to 100; the
constraint appears only as the written `=SUM(K2:K7)` formula in the
Probability Sum row and the decimal between-0-and-100 data validation on
`K2:K7`; and no program logic verifies the sum — the validator still exits
0 on a workbook whose probability column sums to 101. -/
theorem c4_probability_sum_not_program_checked :
    macro_probabilities = [30, 25, 20, 10, 10, 5] ∧
    macro_probabilities.sum = 100 ∧
    build_macro_scenarios.get (9, 11) = some (Value.s "=SUM(K2:K7)") ∧
    build_macro_scenarios.dvs =
      [ { dvType := "decimal", operator := some "between",
          formula1 := some "0", formula2 := some "100",
          allowBlank := false, showErrorMessage := true,
          errorTitle := some "Invalid",
          errorMsg := some "Probability must be between 0 and 100.",
          sqref := "K2:K7" } ] ∧
    ((List.range' 2 6).map (fun r => tampered_macro_sheet.get (r, 11))) =
      [I 30, I 25, I 20, I 10, I 10, I 6] ∧
    (recalc_main (some tampered_workbook)).exitCode = 0 := by
  decide

end GPB


